import Mathlib

/-!
Shallow embedding of the `ng-create-with-config` initializer pipeline
(`src/init.js`): a straight-line CLI script that invokes an external Angular
project generator, runs a fixed sequence of package-manager installs, writes
a handful of literal configuration files, and patches the generated project's
`package.json` twice.

The embedding models the script as a list of `Action`s interpreted over a
`RunState` holding the event trace (process spawns, file writes, console
output), the current working directory, a small filesystem map, and the
process exit status.  External collaborators (the generator, the package
manager) are opaque: an environment `Env` supplies each spawned command's
exit status and the manifest that the generator leaves in the new project
directory.
-/

namespace NgCreate

/-- JSON values as produced by `JSON.parse` and consumed by `JSON.stringify`.
Objects are insertion-ordered association lists, mirroring JavaScript object
key order. -/
inductive Json where
  | null : Json
  | bool : Bool → Json
  | num : Int → Json
  | str : String → Json
  | arr : List Json → Json
  | obj : List (String × Json) → Json

/-- JavaScript property assignment `o[k] = v` on an insertion-ordered entry
list: an existing key keeps its position and gets the new value, a fresh key
is appended at the end. -/
def setEntry {α β : Type} [DecidableEq α] : List (α × β) → α → β → List (α × β)
  | [], k, v => [(k, v)]
  | (k₀, v₀) :: rest, k, v =>
      if k₀ = k then (k, v) :: rest else (k₀, v₀) :: setEntry rest k v

/-- JavaScript property read `o[k]` on an entry list. -/
def lookupEntry {α β : Type} [DecidableEq α] : List (α × β) → α → Option β
  | [], _ => none
  | (k₀, v₀) :: rest, k => if k₀ = k then some v₀ else lookupEntry rest k

/-- Property assignment on a `Json` value; on a non-object it is a no-op,
matching sloppy-mode JavaScript assignment to a primitive. -/
def Json.setKey : Json → String → Json → Json
  | .obj es, k, v => .obj (setEntry es k v)
  | j, _, _ => j

/-- Property read on a `Json` value (`undefined` is `none`). -/
def Json.getKey : Json → String → Option Json
  | .obj es, k => lookupEntry es k
  | _, _ => none

/-- Entries contributed by a spread `\x7b...x\x7d` of a property that is
either an object or absent (`undefined` spreads to nothing); these are the
only shapes a parsed manifest's `scripts` field takes here. -/
def spreadEntries : Option Json → List (String × Json)
  | some (.obj es) => es
  | _ => []

/-! ## Literal configuration payloads from `src/init.js` -/

/-- The `lint-staged` configuration object assigned to the manifest
(init.js lines 207-211). -/
def lintStagedConfig : Json := .obj [
  ("*.ts", .arr [.str "eslint --fix", .str "prettier --write"]),
  ("*.html", .arr [.str "prettier --write"]),
  ("*.scss", .arr [.str "prettier --write"])]

/-- First manifest patch: `packageJson[\x27lint-staged\x27] = \x7b...\x7d`
(init.js lines 206-212). -/
def setLintStaged (packageJson : Json) : Json :=
  packageJson.setKey "lint-staged" lintStagedConfig

/-- The literal script entries of the object literal at init.js lines 238-243,
in evaluation order. -/
def newScripts : List (String × Json) := [
  ("lint", .str "ng lint"),
  ("lint:fix", .str "ng lint --fix"),
  ("format", .str "prettier --write \"src/**/*.\x7bts,html,scss\x7d\"")]

/-- Second manifest patch: `updatedPackageJson.scripts =
\x7b ...updatedPackageJson.scripts, lint: ..., \x27lint:fix\x27: ..., format: ... \x7d`
(init.js lines 237-244). -/
def mergeScripts (updatedPackageJson : Json) : Json :=
  updatedPackageJson.setKey "scripts"
    (.obj (newScripts.foldl (fun es kv => setEntry es kv.1 kv.2)
      (spreadEntries (updatedPackageJson.getKey "scripts"))))

/-- Content of `.postcssrc.json` (init.js lines 73-79, a template literal). -/
def tailwindConfig : String :=
  "\n    \x7b\n        \"plugins\": \x7b\n            \"@tailwindcss/postcss\": \x7b\x7d\n        \x7d\n    \x7d\n"

/-- Content written over `src/styles.scss` (init.js lines 83-86). -/
def stylesScss : String :=
  "\n    /\x2a Tailwind CSS \x2a/\n    @use \"tailwindcss\";\n"

/-- The `.prettierrc` record (init.js lines 92-112). -/
def prettierConfig : Json := .obj [
  ("tabWidth", .num 2),
  ("endOfLine", .str "auto"),
  ("proseWrap", .str "preserve"),
  ("useTabs", .bool false),
  ("singleQuote", .bool true),
  ("semi", .bool true),
  ("bracketSpacing", .bool true),
  ("arrowParens", .str "avoid"),
  ("trailingComma", .str "es5"),
  ("bracketSameLine", .bool true),
  ("printWidth", .num 80),
  ("overrides", .arr [.obj [
    ("files", .str "*.html"),
    ("options", .obj [("parser", .str "angular")])]])]

/-- Content of `.prettierignore` (init.js lines 117-124). -/
def prettierIgnore : String :=
  "node_modules\ndist\ncoverage\n.angular\n*.min.js\n*.min.css\npackage-lock.json\n"

/-- Content of `eslint.config.js` (init.js lines 130-200, a template
literal). -/
def eslintConfig : String := String.intercalate "\n" [
  "",
  "  \x2f/ @ts-check",
  "  const eslint = require(\x27@eslint/js\x27);",
  "  const tseslint = require(\x27typescript-eslint\x27);",
  "  const angular = require(\x27angular-eslint\x27);",
  "  const eslintPluginPrettierRecommended = require(\x27eslint-plugin-prettier/recommended\x27);",
  "  const eslintPluginUnusedImport = require(\x27eslint-plugin-unused-imports\x27);",
  "  const eslintPluginSimpleImportSort = require(\x27eslint-plugin-simple-import-sort\x27);",
  "  module.exports = tseslint.config(",
  "    \x7b",
  "      files: [\x27**\x2f*.ts\x27],",
  "      extends: [",
  "        eslint.configs.recommended,",
  "        ...tseslint.configs.recommended,",
  "        ...tseslint.configs.stylistic,",
  "        ...angular.configs.tsRecommended,",
  "        eslintPluginPrettierRecommended,",
  "      ],",
  "      plugins: \x7b",
  "        \x27unused-imports\x27: eslintPluginUnusedImport,",
  "        \x27simple-import-sort\x27: eslintPluginSimpleImportSort,",
  "      \x7d,",
  "      processor: angular.processInlineTemplates,",
  "      rules: \x7b",
  "        \x27@angular-eslint/directive-selector\x27: [",
  "          \x27error\x27,",
  "          \x7b",
  "            type: \x27attribute\x27,",
  "            prefix: \x27app\x27,",
  "            style: \x27camelCase\x27,",
  "          \x7d,",
  "        ],",
  "        \x27@angular-eslint/component-selector\x27: [",
  "          \x27error\x27,",
  "          \x7b",
  "            type: \x27element\x27,",
  "            prefix: \x27app\x27,",
  "            style: \x27kebab-case\x27,",
  "          \x7d,",
  "        ],",
  "        \x27prettier/prettier\x27: [",
  "          \x27error\x27,",
  "          \x7b",
  "            endOfLine: \x27auto\x27, \x2f/ Automatically handles line endings",
  "          \x7d,",
  "        ],",
  "        \x27@typescript-eslint/no-unused-vars\x27: \x27off\x27,",
  "        \x27unused-imports/no-unused-imports\x27: \x27error\x27,",
  "        \x27unused-imports/no-unused-vars\x27: [",
  "          \x27warn\x27,",
  "          \x7b",
  "            vars: \x27all\x27,",
  "            varsIgnorePattern: \x27^_\x27,",
  "            args: \x27after-used\x27,",
  "            argsIgnorePattern: \x27^_\x27,",
  "          \x7d,",
  "        ],",
  "        \x27simple-import-sort/imports\x27: \x27warn\x27,",
  "        \x27simple-import-sort/exports\x27: \x27warn\x27,",
  "      \x7d,",
  "    \x7d,",
  "    \x7b",
  "      files: [\x27**\x2f*.html\x27],",
  "      extends: [",
  "        ...angular.configs.templateRecommended,",
  "        ...angular.configs.templateAccessibility,",
  "      ],",
  "      rules: \x7b\x7d,",
  "    \x7d",
  "  );",
  ""]

/-- Content of `.husky/pre-commit` (init.js lines 217-218). -/
def preCommitHook : String := "npx lint-staged\n"

/-! ## Console formatting helpers (init.js lines 8-21) -/

def colorsReset : String := "\x1b[0m"
def colorsGreen : String := "\x1b[32m"
def colorsBlue : String := "\x1b[34m"
def colorsYellow : String := "\x1b[33m"

/-- The line `printMessage` sends to standard output. -/
def printMessage (message : String) : String :=
  colorsBlue ++ "==>" ++ colorsReset ++ " " ++ colorsGreen ++ message ++ colorsReset

/-- The line `printWarning` sends to standard output. -/
def printWarning (message : String) : String :=
  colorsYellow ++ "Warning:" ++ colorsReset ++ " " ++ message

/-! ## External commands -/

/-- The project-generation command (init.js line 44). -/
def ngNewCmd (projectName : String) : String :=
  "ng new " ++ projectName ++ " --routing --style=scss --skip-git"

/-- The eight fixed install/setup commands run inside the project directory
(init.js lines 52-69), in order. -/
def installCmds : List String := [
  "npm install tailwindcss @tailwindcss/postcss postcss",
  "npm install -D @angular-eslint/schematics",
  "ng add @angular-eslint/schematics --skip-confirmation",
  "npm install prettier prettier-eslint eslint-config-prettier eslint-plugin-prettier --save-dev",
  "npm install eslint-plugin-unused-imports --save-dev",
  "npm install eslint-plugin-simple-import-sort --save-dev",
  "npm install -D lint-staged husky",
  "npx husky init"]

/-- All nine external commands the pipeline spawns, in order. -/
def pipelineCommands (projectName : String) : List String :=
  ngNewCmd projectName :: installCmds

/-! ## Run model -/

/-- A file's content: opaque text, or the serialization of a JSON value. -/
inductive FileContent where
  | text : String → FileContent
  | json : Json → FileContent

/-- Environment of one run: the CLI argument `process.argv[2]`, each spawned
command's success, whether `chmodSync` succeeds, the platform check
`process.platform !== \x27win32\x27`, and the `package.json` the external
generator leaves in the project directory on success. -/
structure Env where
  argv2 : Option String
  cmdOk : String → Bool
  chmodOk : Bool
  isWin32 : Bool
  genManifest : Json

/-- Observable events of a run.  File paths are (directory, relative path)
pairs, the directory being the working directory at the time of the call. -/
inductive Event where
  | execCmd : String → String → Event
  | chdir : String → Event
  | writeFile : String × String → Event
  | mkdir : String × String → Event
  | chmodAttempt : String × String → Event
  | stdoutLine : String → Event
  | stderrLine : String → Event

/-- Process state threaded through the straight-line script.  `revEvents`
stores the event trace most recent first (see `trace`). -/
structure RunState where
  revEvents : List Event
  cwd : String
  files : List ((String × String) × FileContent)
  dirs : List (String × String)
  exitCode : Option Nat
  crashed : Bool

/-- Whether `process.exit` has been called or an unhandled exception was
thrown. -/
def halted (s : RunState) : Bool := s.exitCode.isSome || s.crashed

def logEv (s : RunState) (e : Event) : RunState := { s with revEvents := e :: s.revEvents }

/-- The chronological event trace of a state. -/
def trace (s : RunState) : List Event := s.revEvents.reverse

/-- One primitive operation of the straight-line script. -/
inductive Action where
  | consoleLog : String → Action
  | consoleError : String → Action
  | exec : String → Action
  | execGen : String → String → Action
  | chdir : String → Action
  | write : String → FileContent → Action
  | updateManifest : (Json → Json) → Action
  | mkdirIfAbsent : String → Action
  | chmodFile : String → Action

/-- Interpret one action.  `exec` models `executeCommand` (init.js lines
23-30): on non-zero exit it prints the diagnostic and calls
`process.exit(1)`.  `execGen` is `exec` for the project generator, whose
success additionally leaves the new project directory containing the
generated manifest (an effect of the external tool, not of this program, so
no write event is recorded).  `updateManifest` is a read-parse-modify-write
of `package.json` in the current directory; a failing read/parse is an
unhandled exception (crash).  `chmodFile` models the guarded
`fs.chmodSync` (init.js lines 226-232): skipped on win32, and a failure is
caught and reported via `printWarning`. -/
def stepAction (env : Env) (s : RunState) : Action → RunState
  | .consoleLog line => logEv s (.stdoutLine line)
  | .consoleError line => logEv s (.stderrLine line)
  | .exec command =>
      let s₁ := logEv s (.execCmd s.cwd command)
      if env.cmdOk command then s₁
      else { logEv s₁ (.stderrLine ("Failed to execute: " ++ command)) with exitCode := some 1 }
  | .execGen command projectName =>
      let s₁ := logEv s (.execCmd s.cwd command)
      if env.cmdOk command then
        { s₁ with dirs := s₁.dirs ++ [(s.cwd, projectName)],
                  files := setEntry s₁.files (projectName, "package.json") (.json env.genManifest) }
      else { logEv s₁ (.stderrLine ("Failed to execute: " ++ command)) with exitCode := some 1 }
  | .chdir dir => { logEv s (.chdir dir) with cwd := dir }
  | .write p c =>
      { logEv s (.writeFile (s.cwd, p)) with files := setEntry s.files (s.cwd, p) c }
  | .updateManifest f =>
      match lookupEntry s.files (s.cwd, "package.json") with
      | some (.json pj) =>
          { logEv s (.writeFile (s.cwd, "package.json")) with
              files := setEntry s.files (s.cwd, "package.json") (.json (f pj)) }
      | _ => { s with crashed := true }
  | .mkdirIfAbsent p =>
      if (s.cwd, p) ∈ s.dirs then s
      else { logEv s (.mkdir (s.cwd, p)) with dirs := s.dirs ++ [(s.cwd, p)] }
  | .chmodFile p =>
      if env.isWin32 then s
      else
        let s₁ := logEv s (.chmodAttempt (s.cwd, p))
        if env.chmodOk then s₁
        else logEv s₁ (.stdoutLine (printWarning "Could not make pre-commit hook executable"))

/-- Run a list of actions in order; once the process has halted
(`process.exit` or a crash), the remaining actions do not execute. -/
def runActions (env : Env) : List Action → RunState → RunState
  | [], s => s
  | a :: rest, s => if halted s then s else runActions env rest (stepAction env s a)

/-- The straight-line body of `src/init.js` after the argument check, as an
ordered action list (init.js lines 41-264). -/
def script (projectName : String) : List Action :=
  [.consoleLog (printMessage ("Creating Angular project: " ++ projectName)),
   .execGen (ngNewCmd projectName) projectName,
   .chdir projectName,
   .consoleLog (printMessage "Installing dependencies...")]
  ++ installCmds.map .exec ++
  [.consoleLog (printMessage "Configuring Tailwind CSS..."),
   .write ".postcssrc.json" (.text tailwindConfig),
   .write "src/styles.scss" (.text stylesScss),
   .consoleLog (printMessage "Configuring Prettier..."),
   .write ".prettierrc" (.json prettierConfig),
   .write ".prettierignore" (.text prettierIgnore),
   .consoleLog (printMessage "Configuring ESLint, Prettier, Unused Imports and Simple Sort Imports..."),
   .write "eslint.config.js" (.text eslintConfig),
   .consoleLog (printMessage "Configuring lint-staged..."),
   .updateManifest setLintStaged,
   .consoleLog (printMessage "Setting up Husky pre-commit hook..."),
   .mkdirIfAbsent ".husky",
   .write ".husky/pre-commit" (.text preCommitHook),
   .chmodFile ".husky/pre-commit",
   .consoleLog (printMessage "Adding npm scripts..."),
   .updateManifest mergeScripts,
   .consoleLog (printMessage "✨ Project setup complete! ✨"),
   .consoleLog "",
   .consoleLog "Your Angular project is ready with:",
   .consoleLog "  ✓ Angular with routing and SCSS",
   .consoleLog "  ✓ Tailwind CSS",
   .consoleLog "  ✓ ESLint with Angular rules",
   .consoleLog "  ✓ Prettier",
   .consoleLog "  ✓ lint-staged with Husky pre-commit hooks",
   .consoleLog "",
   .consoleLog "Available commands:",
   .consoleLog "  npm start          - Start development server",
   .consoleLog "  npm run lint       - Run ESLint",
   .consoleLog "  npm run lint:fix   - Fix ESLint issues",
   .consoleLog "  npm run format     - Format code with Prettier",
   .consoleLog "  npm run format:check - Check code formatting",
   .consoleLog "",
   .consoleLog "Get started:",
   .consoleLog ("  cd " ++ projectName),
   .consoleLog "  npm start"]

/-- Fresh process state. -/
def initState : RunState :=
  { revEvents := [], cwd := "", files := [], dirs := [], exitCode := none, crashed := false }

/-- State after the usage-error path (init.js lines 35-39): two lines on the
error stream, then `process.exit(1)`. -/
def usageState : RunState :=
  { logEv (logEv initState (.stderrLine "Usage: npx ng-create-with-config <project-name>"))
      (.stderrLine "   or: node init.js <project-name>") with
    exitCode := some 1 }

/-- The whole program: `process.argv[2]` is falsy exactly when it is absent
or the empty string (init.js lines 33-39), otherwise the pipeline runs. -/
def run (env : Env) : RunState :=
  match env.argv2 with
  | none => usageState
  | some projectName =>
      if projectName.isEmpty then usageState
      else runActions env (script projectName) initState

/-- Exit status of the finished process: an uncaught exception exits
non-zero, explicit `process.exit` takes its argument, and falling off the
end of the script exits 0. -/
def exitStatus (s : RunState) : Nat :=
  if s.crashed then 1 else s.exitCode.getD 0

/-- Events that touch the filesystem or spawn a process. -/
def Event.isSideEffect : Event → Bool
  | .execCmd _ _ => true
  | .chdir _ => true
  | .writeFile _ => true
  | .mkdir _ => true
  | .chmodAttempt _ => true
  | .stdoutLine _ => false
  | .stderrLine _ => false

/-- The commands spawned during a run, in order. -/
def execedCommands (evs : List Event) : List String :=
  evs.filterMap (fun e => match e with | .execCmd _ c => some c | _ => none)

/-- Whether an action is the working-directory change. -/
def Action.isChdir : Action → Bool
  | .chdir _ => true
  | _ => false

/-! ## Concrete test environments -/

/-- A stub manifest as left by the generator: a name, a version and one
pre-existing script. -/
def demoManifest : Json := .obj [
  ("name", .str "demo"),
  ("version", .str "0.0.0"),
  ("scripts", .obj [("start", .str "ng serve")])]

/-- Environment of a fully successful run on project name `demo`. -/
def demoEnv : Env :=
  { argv2 := some "demo", cmdOk := fun _ => true, chmodOk := true, isWin32 := false,
    genManifest := demoManifest }

/-- Environment of an invocation with no positional argument. -/
def noArgEnv : Env :=
  { argv2 := none, cmdOk := fun _ => true, chmodOk := true, isWin32 := false,
    genManifest := .obj [] }

/-- Environment of an invocation whose single argument is the empty string. -/
def emptyArgEnv : Env :=
  { argv2 := some "", cmdOk := fun _ => true, chmodOk := true, isWin32 := false,
    genManifest := .obj [] }

/-- Environment in which every command succeeds but setting the executable
bit on the hook file is denied. -/
def chmodFailEnv : Env :=
  { argv2 := some "demo", cmdOk := fun _ => true, chmodOk := false, isWin32 := false,
    genManifest := demoManifest }

/-- Environment in which the final external command (`npx husky init`)
exits non-zero and every earlier one succeeds. -/
def huskyFailEnv : Env :=
  { argv2 := some "demo", cmdOk := fun c => !(c == "npx husky init"), chmodOk := true,
    isWin32 := false, genManifest := demoManifest }

/-- Environment in which the project-generation command itself fails. -/
def genFailEnv : Env :=
  { argv2 := some "demo", cmdOk := fun c => !(c == ngNewCmd "demo"), chmodOk := true,
    isWin32 := false, genManifest := demoManifest }

/-! ## Basic lemmas -/

theorem ne_empty_of_isEmpty_false (n : String) (h : n.isEmpty = false) : ¬ (n = "") := by
  intro he
  subst he
  exact absurd h (by decide)

theorem lookupEntry_setEntry_self {α β : Type} [DecidableEq α] (es : List (α × β)) (k : α)
    (v : β) : lookupEntry (setEntry es k v) k = some v := by
  induction es with
  | nil => simp [setEntry, lookupEntry]
  | cons e rest ih =>
      obtain ⟨k₀, v₀⟩ := e
      by_cases h : k₀ = k
      · subst h
        simp [setEntry, lookupEntry]
      · simp [setEntry, lookupEntry, h, ih]

theorem lookupEntry_setEntry_ne {α β : Type} [DecidableEq α] (es : List (α × β)) (k k' : α)
    (v : β) (h : k' ≠ k) : lookupEntry (setEntry es k v) k' = lookupEntry es k' := by
  induction es with
  | nil => simp [setEntry, lookupEntry, Ne.symm h]
  | cons e rest ih =>
      obtain ⟨k₀, v₀⟩ := e
      by_cases h₀ : k₀ = k
      · subst h₀
        simp [setEntry, lookupEntry, Ne.symm h]
      · simp [setEntry, lookupEntry, h₀, ih]

theorem getKey_setKey_self (es : List (String × Json)) (k : String) (v : Json) :
    (Json.setKey (.obj es) k v).getKey k = some v := by
  simp [Json.setKey, Json.getKey, lookupEntry_setEntry_self]

theorem getKey_setKey_ne (es : List (String × Json)) (k k' : String) (v : Json)
    (h : k' ≠ k) : (Json.setKey (.obj es) k v).getKey k' = lookupEntry es k' := by
  simp [Json.setKey, Json.getKey, lookupEntry_setEntry_ne _ _ _ _ h]

/-! ## Claim C2: zero arguments -/

/-- C2: for every invocation with zero positional arguments, the program
emits the usage message to the error stream and terminates with exit status
1 before performing any side effect: no process is spawned, no file or
directory is written, and the filesystem is untouched. -/
theorem c2_zero_args_usage_exit (env : Env) (h : env.argv2 = none) :
    exitStatus (run env) = 1 ∧
    Event.stderrLine "Usage: npx ng-create-with-config <project-name>" ∈ trace (run env) ∧
    (∀ e ∈ trace (run env), e.isSideEffect = false) ∧
    (run env).files = [] := by
  simp [run, h, usageState, initState, trace, logEv, exitStatus, Event.isSideEffect]

theorem c2_zero_args_usage_exit_witness :
    exitStatus (run noArgEnv) = 1 ∧
    Event.stderrLine "Usage: npx ng-create-with-config <project-name>" ∈ trace (run noArgEnv) ∧
    (∀ e ∈ trace (run noArgEnv), e.isSideEffect = false) ∧
    (run noArgEnv).files = [] :=
  c2_zero_args_usage_exit noArgEnv rfl

/-! ## Claim C10: empty-string argument -/

/-- C10: an empty-string project-name argument is treated exactly like a
missing argument: the run is identical to the zero-argument run, exits with
status 1 after the usage message, and performs no side effect. -/
theorem c10_empty_arg_usage_exit (env : Env) (h : env.argv2 = some "") :
    run env = run { env with argv2 := none } ∧
    exitStatus (run env) = 1 ∧
    Event.stderrLine "Usage: npx ng-create-with-config <project-name>" ∈ trace (run env) ∧
    (∀ e ∈ trace (run env), e.isSideEffect = false) ∧
    (run env).files = [] := by
  have he : ("" : String).isEmpty = true := by decide
  simp [run, h, he, usageState, initState, trace, logEv, exitStatus, Event.isSideEffect]

theorem c10_empty_arg_usage_exit_witness :
    run emptyArgEnv = run { emptyArgEnv with argv2 := none } ∧
    exitStatus (run emptyArgEnv) = 1 ∧
    Event.stderrLine "Usage: npx ng-create-with-config <project-name>" ∈ trace (run emptyArgEnv) ∧
    (∀ e ∈ trace (run emptyArgEnv), e.isSideEffect = false) ∧
    (run emptyArgEnv).files = [] :=
  c10_empty_arg_usage_exit emptyArgEnv rfl

/-! ## Claim C5: the lint-staged mapping -/

/-- C5: the first package-manifest read-modify-write sets the manifest's
lint-staged key to a mapping of exactly three file-pattern rules: `*.ts`
maps to the linter fix command followed by the formatter write command, and
`*.html` and `*.scss` each map to the formatter write command only. -/
theorem c5_lint_staged_three_rules (es : List (String × Json)) :
    (setLintStaged (.obj es)).getKey "lint-staged" = some (.obj [
      ("*.ts", .arr [.str "eslint --fix", .str "prettier --write"]),
      ("*.html", .arr [.str "prettier --write"]),
      ("*.scss", .arr [.str "prettier --write"])]) := by
  simp [setLintStaged, lintStagedConfig, getKey_setKey_self]

/-! ## Claim C9: the lint-staged update is wholesale replacement -/

/-- C9: for every starting manifest that already contains a lint-staged
mapping, the staged-file-runner update discards it entirely and sets the key
to exactly the fixed three-rule mapping, while every other key of the
manifest is left unchanged. -/
theorem c9_lint_staged_wholesale (es : List (String × Json)) (old : Json)
    (hold : lookupEntry es "lint-staged" = some old) :
    (setLintStaged (.obj es)).getKey "lint-staged" = some lintStagedConfig ∧
    ∀ k, k ≠ "lint-staged" → (setLintStaged (.obj es)).getKey k = lookupEntry es k := by
  constructor
  · simp [setLintStaged, getKey_setKey_self]
  · intro k hk
    simp [setLintStaged, getKey_setKey_ne _ _ _ _ hk]

theorem c9_lint_staged_wholesale_witness :
    (setLintStaged (.obj [("lint-staged", Json.obj [("*.js", Json.arr [Json.str "jest"])])])).getKey
        "lint-staged" = some lintStagedConfig ∧
    ∀ k, k ≠ "lint-staged" →
      (setLintStaged
            (.obj [("lint-staged", Json.obj [("*.js", Json.arr [Json.str "jest"])])])).getKey k =
        lookupEntry [("lint-staged", Json.obj [("*.js", Json.arr [Json.str "jest"])])] k :=
  c9_lint_staged_wholesale _ _ rfl

/-! ## Claim C6: scripts merge is last-write-wins and preserves the rest -/

/-- C6: for every manifest whose scripts mapping already defines a `lint`
script with a different value, applying the scripts-merge step once or twice
yields a scripts mapping in which the merged `lint` value has overwritten
the old one, while every pre-existing script whose name is none of the three
merged names is unchanged. -/
theorem c6_scripts_merge_last_write_wins (es scripts : List (String × Json)) (old : Json)
    (hs : lookupEntry es "scripts" = some (.obj scripts))
    (hold : lookupEntry scripts "lint" = some old)
    (hne : old ≠ .str "ng lint") :
    ∃ s₁ s₂,
      (mergeScripts (.obj es)).getKey "scripts" = some (.obj s₁) ∧
      (mergeScripts (mergeScripts (.obj es))).getKey "scripts" = some (.obj s₂) ∧
      lookupEntry s₁ "lint" = some (.str "ng lint") ∧
      lookupEntry s₂ "lint" = some (.str "ng lint") ∧
      (∀ k, k ≠ "lint" → k ≠ "lint:fix" → k ≠ "format" →
        lookupEntry s₁ k = lookupEntry scripts k ∧
        lookupEntry s₂ k = lookupEntry scripts k) := by
  refine ⟨setEntry (setEntry (setEntry scripts "lint" (Json.str "ng lint")) "lint:fix"
      (Json.str "ng lint --fix")) "format"
      (Json.str "prettier --write \"src/**/*.\x7bts,html,scss\x7d\""),
    setEntry (setEntry (setEntry
      (setEntry (setEntry (setEntry scripts "lint" (Json.str "ng lint")) "lint:fix"
        (Json.str "ng lint --fix")) "format"
        (Json.str "prettier --write \"src/**/*.\x7bts,html,scss\x7d\""))
      "lint" (Json.str "ng lint")) "lint:fix"
      (Json.str "ng lint --fix")) "format"
      (Json.str "prettier --write \"src/**/*.\x7bts,html,scss\x7d\""), ?_, ?_, ?_, ?_, ?_⟩
  case _ =>
    simp [mergeScripts, newScripts, Json.getKey, hs, spreadEntries, Json.setKey,
      lookupEntry_setEntry_self]
  case _ =>
    simp [mergeScripts, newScripts, Json.getKey, hs, spreadEntries, Json.setKey,
      lookupEntry_setEntry_self]
  case _ =>
    rw [lookupEntry_setEntry_ne _ _ _ _ (by decide), lookupEntry_setEntry_ne _ _ _ _ (by decide),
      lookupEntry_setEntry_self]
  case _ =>
    rw [lookupEntry_setEntry_ne _ _ _ _ (by decide), lookupEntry_setEntry_ne _ _ _ _ (by decide),
      lookupEntry_setEntry_self]
  case _ =>
    intro k h1 h2 h3
    constructor
    · rw [lookupEntry_setEntry_ne _ _ _ _ h3, lookupEntry_setEntry_ne _ _ _ _ h2,
        lookupEntry_setEntry_ne _ _ _ _ h1]
    · rw [lookupEntry_setEntry_ne _ _ _ _ h3, lookupEntry_setEntry_ne _ _ _ _ h2,
        lookupEntry_setEntry_ne _ _ _ _ h1, lookupEntry_setEntry_ne _ _ _ _ h3,
        lookupEntry_setEntry_ne _ _ _ _ h2, lookupEntry_setEntry_ne _ _ _ _ h1]

theorem c6_scripts_merge_last_write_wins_witness :
    ∃ s₁ s₂,
      (mergeScripts (.obj [("name", Json.str "x"),
          ("scripts", Json.obj [("lint", Json.str "eslint ."),
            ("start", Json.str "ng serve")])])).getKey "scripts" = some (.obj s₁) ∧
      (mergeScripts (mergeScripts (.obj [("name", Json.str "x"),
          ("scripts", Json.obj [("lint", Json.str "eslint ."),
            ("start", Json.str "ng serve")])]))).getKey "scripts" = some (.obj s₂) ∧
      lookupEntry s₁ "lint" = some (.str "ng lint") ∧
      lookupEntry s₂ "lint" = some (.str "ng lint") ∧
      (∀ k, k ≠ "lint" → k ≠ "lint:fix" → k ≠ "format" →
        lookupEntry s₁ k = lookupEntry [("lint", Json.str "eslint ."),
          ("start", Json.str "ng serve")] k ∧
        lookupEntry s₂ k = lookupEntry [("lint", Json.str "eslint ."),
          ("start", Json.str "ng serve")] k) :=
  c6_scripts_merge_last_write_wins _ _ _ rfl rfl (by simp)

/-! ## Claim C4: the formatter configuration file -/

/-- C4: after every full successful run (all nine external commands succeed),
the formatter configuration written to `.prettierrc` in the project root is
exactly `prettierConfig`, whose parsed fields give `tabWidth = 2`,
`singleQuote = true`, `semi = true`, and one overrides entry applying the
`angular` parser to `*.html` files. -/
theorem c4_prettier_config_content (env : Env) (n : String) (ha : env.argv2 = some n)
    (hne : n.isEmpty = false)
    (hok : ∀ c ∈ pipelineCommands n, env.cmdOk c = true) :
    lookupEntry (run env).files (n, ".prettierrc") = some (.json prettierConfig) ∧
    prettierConfig.getKey "tabWidth" = some (.num 2) ∧
    prettierConfig.getKey "singleQuote" = some (.bool true) ∧
    prettierConfig.getKey "semi" = some (.bool true) ∧
    prettierConfig.getKey "overrides" = some (.arr [.obj [
      ("files", .str "*.html"),
      ("options", .obj [("parser", .str "angular")])]]) := by
  have hne' : ¬ (n = "") := ne_empty_of_isEmpty_false n hne
  simp only [pipelineCommands, installCmds, List.mem_cons, List.mem_singleton,
    forall_eq_or_imp, forall_eq, List.not_mem_nil] at hok
  obtain ⟨h1, h2, h3, h4, h5, h6, h7, h8, h9, -⟩ := hok
  cases hw : env.isWin32 <;> cases hc : env.chmodOk <;>
    simp [run, ha, hne, script, installCmds, runActions, stepAction, halted, logEv,
      initState, setEntry, lookupEntry, h1, h2, h3, h4, h5, h6, h7, h8, h9, hw, hc, hne',
      setLintStaged, mergeScripts, Json.setKey, Json.getKey, spreadEntries, newScripts,
      prettierConfig]

theorem c4_prettier_config_content_witness :
    lookupEntry (run demoEnv).files ("demo", ".prettierrc") = some (.json prettierConfig) ∧
    prettierConfig.getKey "tabWidth" = some (.num 2) ∧
    prettierConfig.getKey "singleQuote" = some (.bool true) ∧
    prettierConfig.getKey "semi" = some (.bool true) ∧
    prettierConfig.getKey "overrides" = some (.arr [.obj [
      ("files", .str "*.html"),
      ("options", .obj [("parser", .str "angular")])]]) :=
  c4_prettier_config_content demoEnv "demo" rfl (by decide) (fun c _ => rfl)

/-! ## Claim C8: a chmod failure is non-fatal -/

/-- C8: if setting the executable bit on the pre-commit hook fails (on a
non-win32 platform), the failure is reported through `printWarning` and the
pipeline still reaches the final success printout and exits 0. -/
theorem c8_chmod_failure_nonfatal (env : Env) (n : String) (ha : env.argv2 = some n)
    (hne : n.isEmpty = false)
    (hok : ∀ c ∈ pipelineCommands n, env.cmdOk c = true)
    (hw : env.isWin32 = false) (hchmod : env.chmodOk = false) :
    Event.stdoutLine (printWarning "Could not make pre-commit hook executable") ∈ trace (run env) ∧
    Event.stdoutLine (printMessage "✨ Project setup complete! ✨") ∈ trace (run env) ∧
    Event.stdoutLine "  npm start" ∈ trace (run env) ∧
    exitStatus (run env) = 0 := by
  have hne' : ¬ (n = "") := ne_empty_of_isEmpty_false n hne
  simp only [pipelineCommands, installCmds, List.mem_cons, List.mem_singleton,
    forall_eq_or_imp, forall_eq, List.not_mem_nil] at hok
  obtain ⟨h1, h2, h3, h4, h5, h6, h7, h8, h9, -⟩ := hok
  simp [run, ha, hne, script, installCmds, runActions, stepAction, halted, logEv,
    initState, setEntry, lookupEntry, h1, h2, h3, h4, h5, h6, h7, h8, h9, hw, hchmod, hne',
    setLintStaged, mergeScripts, Json.setKey, Json.getKey, spreadEntries, newScripts,
    trace, exitStatus]

theorem c8_chmod_failure_nonfatal_witness :
    Event.stdoutLine (printWarning "Could not make pre-commit hook executable")
        ∈ trace (run chmodFailEnv) ∧
    Event.stdoutLine (printMessage "✨ Project setup complete! ✨") ∈ trace (run chmodFailEnv) ∧
    Event.stdoutLine "  npm start" ∈ trace (run chmodFailEnv) ∧
    exitStatus (run chmodFailEnv) = 0 :=
  c8_chmod_failure_nonfatal chmodFailEnv "demo" rfl (by decide) (fun c _ => rfl) rfl rfl

/-! ## Claim C1: the final scripts merge -/

/-- C1 (refuted, code bug): the claim says the final package-manifest update
merges four named scripts.  On a fully successful run the merge adds only
three scripts (`lint`, `lint:fix`, `format`); no fourth script (in
particular no `format:check`) exists in the final manifest, even though the
program's own success printout advertises `npm run format:check`.  The final
manifest is pinned exactly: the pre-existing `start` script plus the three
merged scripts, and the `lint-staged` key. -/
theorem c1_scripts_merge_adds_three_not_four :
    lookupEntry (run demoEnv).files ("demo", "package.json") =
      some (.json (.obj [
        ("name", .str "demo"),
        ("version", .str "0.0.0"),
        ("scripts", .obj [
          ("start", .str "ng serve"),
          ("lint", .str "ng lint"),
          ("lint:fix", .str "ng lint --fix"),
          ("format", .str "prettier --write \"src/**/*.\x7bts,html,scss\x7d\"")]),
        ("lint-staged", lintStagedConfig)])) ∧
    Event.stdoutLine "  npm run format:check - Check code formatting" ∈ trace (run demoEnv) ∧
    exitStatus (run demoEnv) = 0 := by
  have hd : ("demo" : String).isEmpty = false := by decide
  have hne' : ¬ (("demo" : String) = "") := by decide
  simp [run, demoEnv, demoManifest, hd, hne', script, installCmds, runActions, stepAction,
    halted, logEv, initState, setEntry, lookupEntry, setLintStaged, mergeScripts,
    Json.setKey, Json.getKey, spreadEntries, newScripts, lintStagedConfig, trace, exitStatus]

/-! ## Claim C3: fail-fast on a failing external command -/

/-- C3: if the i-th of the nine external commands exits non-zero (and every
earlier one succeeded), the program exits with status 1, a diagnostic names
the failed command on the error stream, the spawned commands are exactly the
first i+1 pipeline commands (so no later step executes), and no file write
has happened. -/
theorem c3_fail_fast (env : Env) (n : String) (i : Nat) (ha : env.argv2 = some n)
    (hne : n.isEmpty = false) (hi : i < (pipelineCommands n).length)
    (hbefore : ∀ j, j < i → env.cmdOk ((pipelineCommands n).getD j "") = true)
    (hfail : env.cmdOk ((pipelineCommands n).getD i "") = false) :
    exitStatus (run env) = 1 ∧
    Event.stderrLine ("Failed to execute: " ++ (pipelineCommands n).getD i "")
        ∈ trace (run env) ∧
    execedCommands (trace (run env)) = (pipelineCommands n).take (i + 1) ∧
    ∀ p, Event.writeFile p ∉ trace (run env) := by
  have hne' : ¬ (n = "") := ne_empty_of_isEmpty_false n hne
  have hi9 : i < 9 := by simpa [pipelineCommands, installCmds] using hi
  interval_cases i
  · simp only [pipelineCommands, installCmds, List.getD_cons_zero,
      List.getD_cons_succ] at hfail ⊢
    simp [run, ha, hne, hne', script, installCmds, runActions, stepAction, halted, logEv,
      initState, hfail, trace, exitStatus, execedCommands]
  · have hb0 := hbefore 0 (by omega)
    simp only [pipelineCommands, installCmds, List.getD_cons_zero,
      List.getD_cons_succ] at hb0 hfail ⊢
    simp [run, ha, hne, hne', script, installCmds, runActions, stepAction, halted, logEv,
      initState, setEntry, hb0, hfail, trace, exitStatus, execedCommands]
  · have hb0 := hbefore 0 (by omega)
    have hb1 := hbefore 1 (by omega)
    simp only [pipelineCommands, installCmds, List.getD_cons_zero,
      List.getD_cons_succ] at hb0 hb1 hfail ⊢
    simp [run, ha, hne, hne', script, installCmds, runActions, stepAction, halted, logEv,
      initState, setEntry, hb0, hb1, hfail, trace, exitStatus, execedCommands]
  · have hb0 := hbefore 0 (by omega)
    have hb1 := hbefore 1 (by omega)
    have hb2 := hbefore 2 (by omega)
    simp only [pipelineCommands, installCmds, List.getD_cons_zero,
      List.getD_cons_succ] at hb0 hb1 hb2 hfail ⊢
    simp [run, ha, hne, hne', script, installCmds, runActions, stepAction, halted, logEv,
      initState, setEntry, hb0, hb1, hb2, hfail, trace, exitStatus, execedCommands]
  · have hb0 := hbefore 0 (by omega)
    have hb1 := hbefore 1 (by omega)
    have hb2 := hbefore 2 (by omega)
    have hb3 := hbefore 3 (by omega)
    simp only [pipelineCommands, installCmds, List.getD_cons_zero,
      List.getD_cons_succ] at hb0 hb1 hb2 hb3 hfail ⊢
    simp [run, ha, hne, hne', script, installCmds, runActions, stepAction, halted, logEv,
      initState, setEntry, hb0, hb1, hb2, hb3, hfail, trace, exitStatus, execedCommands]
  · have hb0 := hbefore 0 (by omega)
    have hb1 := hbefore 1 (by omega)
    have hb2 := hbefore 2 (by omega)
    have hb3 := hbefore 3 (by omega)
    have hb4 := hbefore 4 (by omega)
    simp only [pipelineCommands, installCmds, List.getD_cons_zero,
      List.getD_cons_succ] at hb0 hb1 hb2 hb3 hb4 hfail ⊢
    simp [run, ha, hne, hne', script, installCmds, runActions, stepAction, halted, logEv,
      initState, setEntry, hb0, hb1, hb2, hb3, hb4, hfail, trace, exitStatus, execedCommands]
  · have hb0 := hbefore 0 (by omega)
    have hb1 := hbefore 1 (by omega)
    have hb2 := hbefore 2 (by omega)
    have hb3 := hbefore 3 (by omega)
    have hb4 := hbefore 4 (by omega)
    have hb5 := hbefore 5 (by omega)
    simp only [pipelineCommands, installCmds, List.getD_cons_zero,
      List.getD_cons_succ] at hb0 hb1 hb2 hb3 hb4 hb5 hfail ⊢
    simp [run, ha, hne, hne', script, installCmds, runActions, stepAction, halted, logEv,
      initState, setEntry, hb0, hb1, hb2, hb3, hb4, hb5, hfail, trace, exitStatus,
      execedCommands]
  · have hb0 := hbefore 0 (by omega)
    have hb1 := hbefore 1 (by omega)
    have hb2 := hbefore 2 (by omega)
    have hb3 := hbefore 3 (by omega)
    have hb4 := hbefore 4 (by omega)
    have hb5 := hbefore 5 (by omega)
    have hb6 := hbefore 6 (by omega)
    simp only [pipelineCommands, installCmds, List.getD_cons_zero,
      List.getD_cons_succ] at hb0 hb1 hb2 hb3 hb4 hb5 hb6 hfail ⊢
    simp [run, ha, hne, hne', script, installCmds, runActions, stepAction, halted, logEv,
      initState, setEntry, hb0, hb1, hb2, hb3, hb4, hb5, hb6, hfail, trace, exitStatus,
      execedCommands]
  · have hb0 := hbefore 0 (by omega)
    have hb1 := hbefore 1 (by omega)
    have hb2 := hbefore 2 (by omega)
    have hb3 := hbefore 3 (by omega)
    have hb4 := hbefore 4 (by omega)
    have hb5 := hbefore 5 (by omega)
    have hb6 := hbefore 6 (by omega)
    have hb7 := hbefore 7 (by omega)
    simp only [pipelineCommands, installCmds, List.getD_cons_zero,
      List.getD_cons_succ] at hb0 hb1 hb2 hb3 hb4 hb5 hb6 hb7 hfail ⊢
    simp [run, ha, hne, hne', script, installCmds, runActions, stepAction, halted, logEv,
      initState, setEntry, hb0, hb1, hb2, hb3, hb4, hb5, hb6, hb7, hfail, trace,
      exitStatus, execedCommands]

theorem c3_fail_fast_witness :
    (8 < (pipelineCommands "demo").length ∧
      (∀ j, j < 8 → huskyFailEnv.cmdOk ((pipelineCommands "demo").getD j "") = true)) ∧
    exitStatus (run huskyFailEnv) = 1 ∧
    Event.stderrLine ("Failed to execute: " ++ (pipelineCommands "demo").getD 8 "")
        ∈ trace (run huskyFailEnv) ∧
    execedCommands (trace (run huskyFailEnv)) = (pipelineCommands "demo").take 9 ∧
    ∀ p, Event.writeFile p ∉ trace (run huskyFailEnv) :=
  ⟨⟨by simp [pipelineCommands, installCmds],
    fun j hj => by interval_cases j <;> decide⟩,
    c3_fail_fast huskyFailEnv "demo" 8 rfl (by decide)
      (by simp [pipelineCommands, installCmds])
      (fun j hj => by interval_cases j <;> decide) (by decide)⟩

/-! ## Claim C7: the working-directory change -/

theorem stepAction_cwd (env : Env) (s : RunState) (a : Action) (h : a.isChdir = false) :
    (stepAction env s a).cwd = s.cwd := by
  cases a with
  | consoleLog l => rfl
  | consoleError l => rfl
  | exec c => by_cases hc : env.cmdOk c <;> simp [stepAction, logEv, hc]
  | execGen c pn => by_cases hc : env.cmdOk c <;> simp [stepAction, logEv, hc]
  | chdir d => simp [Action.isChdir] at h
  | write p c => rfl
  | updateManifest f =>
      simp only [stepAction]
      cases hm : lookupEntry s.files (s.cwd, "package.json") with
      | none => rfl
      | some fc => cases fc <;> simp [logEv]
  | mkdirIfAbsent p => by_cases hm : (s.cwd, p) ∈ s.dirs <;> simp [stepAction, logEv, hm]
  | chmodFile p =>
      by_cases hw : env.isWin32
      · simp [stepAction, hw]
      · by_cases hc : env.chmodOk <;> simp [stepAction, logEv, hw, hc]

theorem stepAction_execs (env : Env) (s : RunState) (a : Action) (d c : String)
    (hmem : Event.execCmd d c ∈ (stepAction env s a).revEvents) :
    Event.execCmd d c ∈ s.revEvents ∨ d = s.cwd := by
  cases a with
  | consoleLog l => simp [stepAction, logEv] at hmem; tauto
  | consoleError l => simp [stepAction, logEv] at hmem; tauto
  | exec c' =>
      by_cases hc : env.cmdOk c'
      · simp [stepAction, logEv, hc] at hmem
        rcases hmem with ⟨hd, -⟩ | hmem
        · exact Or.inr hd
        · exact Or.inl hmem
      · simp [stepAction, logEv, hc] at hmem
        rcases hmem with ⟨hd, -⟩ | hmem
        · exact Or.inr hd
        · exact Or.inl hmem
  | execGen c' pn =>
      by_cases hc : env.cmdOk c'
      · simp [stepAction, logEv, hc] at hmem
        rcases hmem with ⟨hd, -⟩ | hmem
        · exact Or.inr hd
        · exact Or.inl hmem
      · simp [stepAction, logEv, hc] at hmem
        rcases hmem with ⟨hd, -⟩ | hmem
        · exact Or.inr hd
        · exact Or.inl hmem
  | chdir dir => simp [stepAction, logEv] at hmem; tauto
  | write p cnt => simp [stepAction, logEv] at hmem; tauto
  | updateManifest f =>
      simp only [stepAction] at hmem
      cases hm : lookupEntry s.files (s.cwd, "package.json") with
      | none => rw [hm] at hmem; exact Or.inl hmem
      | some fc =>
          rw [hm] at hmem
          cases fc with
          | text t => exact Or.inl hmem
          | json pj => simp [logEv] at hmem; tauto
  | mkdirIfAbsent p =>
      by_cases hm : (s.cwd, p) ∈ s.dirs <;> simp [stepAction, logEv, hm] at hmem <;> tauto
  | chmodFile p =>
      by_cases hw : env.isWin32
      · simp [stepAction, hw] at hmem; tauto
      · by_cases hc : env.chmodOk <;> simp [stepAction, logEv, hw, hc] at hmem <;> tauto

theorem runActions_halted (env : Env) (l : List Action) (s : RunState)
    (h : halted s = true) : runActions env l s = s := by
  cases l with
  | nil => rfl
  | cons a rest => simp [runActions, h]

theorem runActions_append (env : Env) (l₁ l₂ : List Action) (s : RunState) :
    runActions env (l₁ ++ l₂) s = runActions env l₂ (runActions env l₁ s) := by
  induction l₁ generalizing s with
  | nil => rfl
  | cons a rest ih =>
      by_cases hh : halted s = true
      · simp [runActions, hh, runActions_halted env l₂ s hh]
      · simp [runActions, hh, ih]

theorem runActions_no_chdir (env : Env) (l : List Action)
    (hl : ∀ a ∈ l, a.isChdir = false) :
    ∀ s, (runActions env l s).cwd = s.cwd ∧
      (∀ d c, Event.execCmd d c ∈ (runActions env l s).revEvents →
        Event.execCmd d c ∈ s.revEvents ∨ d = s.cwd) := by
  induction l with
  | nil =>
      intro s
      exact ⟨rfl, fun d c h => Or.inl h⟩
  | cons a rest ih =>
      intro s
      by_cases hh : halted s = true
      · rw [runActions_halted env (a :: rest) s hh]
        exact ⟨rfl, fun d c h => Or.inl h⟩
      · have ha' : a.isChdir = false := hl a (by simp)
        have hrest := ih (fun b hb => hl b (by simp [hb])) (stepAction env s a)
        have hstep := stepAction_cwd env s a ha'
        have hunfold : runActions env (a :: rest) s =
            runActions env rest (stepAction env s a) := by
          simp [runActions, hh]
        rw [hunfold]
        refine ⟨hrest.1.trans hstep, fun d c hm => ?_⟩
        rcases hrest.2 d c hm with hm' | hd
        · exact stepAction_execs env s a d c hm'
        · exact Or.inr (hd.trans hstep)

theorem ngNewCmd_not_install (n : String) : ngNewCmd n ∉ installCmds := by
  intro hmem
  simp only [installCmds, List.mem_cons, List.not_mem_nil, or_false] at hmem
  rcases hmem with h | h | h | h | h | h | h | h <;>
    · have hd := congrArg String.data h
      simp [ngNewCmd, String.data_append] at hd

/-- C7: the working-directory change happens only after the external
project-generation command has succeeded — on a failed generation no
directory change occurs and the generator is the only command ever spawned —
and every spawned install/setup command executes with the new project
directory as its working directory. -/
theorem c7_chdir_after_generation (env : Env) (n : String) (ha : env.argv2 = some n)
    (hne : n.isEmpty = false) :
    (env.cmdOk (ngNewCmd n) = false →
      (∀ d, Event.chdir d ∉ trace (run env)) ∧
      execedCommands (trace (run env)) = [ngNewCmd n]) ∧
    (∀ d c, Event.execCmd d c ∈ trace (run env) → c ∈ installCmds → d = n) := by
  have hne' : ¬ (n = "") := ne_empty_of_isEmpty_false n hne
  by_cases hgen : env.cmdOk (ngNewCmd n) = true
  · constructor
    · intro hgenF
      rw [hgenF] at hgen
      cases hgen
    · intro d c hm hc
      have hrun : run env = runActions env (script n) initState := by
        simp [run, ha, hne]
      have hsplit : script n =
          ((script n).take 2 ++ [Action.chdir n]) ++ (script n).drop 3 := by
        simp [script]
      have htake : (script n).take 2 =
          [Action.consoleLog (printMessage ("Creating Angular project: " ++ n)),
           Action.execGen (ngNewCmd n) n] := by
        simp [script]
      have hpre : runActions env ((script n).take 2 ++ [Action.chdir n]) initState =
          { revEvents := [Event.chdir n, Event.execCmd "" (ngNewCmd n),
              Event.stdoutLine (printMessage ("Creating Angular project: " ++ n))],
            cwd := n,
            files := [((n, "package.json"), FileContent.json env.genManifest)],
            dirs := [("", n)], exitCode := none, crashed := false } := by
        rw [htake]
        simp [runActions, stepAction, halted, logEv, initState, hgen, setEntry]
      have hl : ∀ a ∈ (script n).drop 3, a.isChdir = false := by
        simp [script, installCmds, Action.isChdir]
      obtain ⟨-, hexec⟩ := runActions_no_chdir env ((script n).drop 3) hl
        (runActions env ((script n).take 2 ++ [Action.chdir n]) initState)
      rw [hrun, hsplit, runActions_append] at hm
      rw [trace, List.mem_reverse] at hm
      rcases hexec _ _ hm with hm' | hd
      · rw [hpre] at hm'
        simp only [List.mem_cons, List.not_mem_nil, or_false] at hm'
        rcases hm' with h1 | h1 | h1
        · cases h1
        · obtain ⟨-, hcn⟩ := Event.execCmd.inj h1
          rw [hcn] at hc
          exact absurd hc (ngNewCmd_not_install n)
        · cases h1
      · rw [hpre] at hd
        exact hd
  · have hgen' : env.cmdOk (ngNewCmd n) = false := by
      cases hb : env.cmdOk (ngNewCmd n)
      · rfl
      · exact absurd hb hgen
    constructor
    · intro _
      constructor
      · intro d
        simp [run, ha, hne, hne', script, runActions, stepAction, halted, logEv, initState,
          hgen', trace]
      · simp [run, ha, hne, hne', script, runActions, stepAction, halted, logEv, initState,
          hgen', trace, execedCommands]
    · intro d c hm hc
      simp [run, ha, hne, hne', script, runActions, stepAction, halted, logEv, initState,
        hgen', trace] at hm
      obtain ⟨h1, hcn⟩ := hm
      rw [hcn] at hc
      exact absurd hc (ngNewCmd_not_install n)

theorem c7_chdir_after_generation_witness :
    ((genFailEnv.cmdOk (ngNewCmd "demo") = false →
      (∀ d, Event.chdir d ∉ trace (run genFailEnv)) ∧
      execedCommands (trace (run genFailEnv)) = [ngNewCmd "demo"]) ∧
    (∀ d c, Event.execCmd d c ∈ trace (run genFailEnv) → c ∈ installCmds → d = "demo")) ∧
    genFailEnv.cmdOk (ngNewCmd "demo") = false :=
  ⟨c7_chdir_after_generation genFailEnv "demo" rfl (by decide), by decide⟩

end NgCreate
